import Mathlib

/-!
Shallow embedding of the vlinder reverse proxy (src/server/reverse_proxy.py)
and log sink (src/server/log_server.py), with theorems checking the
specification's claims about routing, header handling, CORS, error mapping
and log persistence.
-/

namespace Vlinder

/-- Byte strings are modelled as lists of bytes. -/
abbrev Bytes := List UInt8

/-- HTTP methods the proxy handler class implements (do_GET, do_POST,
do_OPTIONS, do_PUT, do_DELETE in reverse_proxy.py). -/
inductive Method where
  | GET
  | POST
  | PUT
  | DELETE
  | OPTIONS
deriving DecidableEq

/-- The two backend services the proxy can forward to. -/
inductive Backend where
  | asset
  | log
deriving DecidableEq

/-- ASSET_SERVER_URL constant from reverse_proxy.py line 18. -/
def ASSET_SERVER_URL : String := "http://localhost:8002"

/-- LOG_SERVER_URL constant from reverse_proxy.py line 19. -/
def LOG_SERVER_URL : String := "http://localhost:8001"

/-- Base URL of a backend. -/
def baseUrl : Backend → String
  | .asset => ASSET_SERVER_URL
  | .log => LOG_SERVER_URL

/-- Python str.startswith, modelled over the character sequences of the two
strings. -/
def pyStartsWith (s p : String) : Bool := p.data.isPrefixOf s.data

/-- Python str.lower() for the ASCII header names the code compares;
modelled over the character sequence. -/
def pyLower (s : String) : String := ⟨s.data.map Char.toLower⟩

/-- Whitespace characters stripped by Python str.strip() and accepted
around int() literals (ASCII subset; no claim involves the others). -/
def pyIsSpace (c : Char) : Bool :=
  c == ' ' || c == '\t' || c == '\n' || c == '\r' || c.toNat == 11 || c.toNat == 12

/-- Python str.strip() over the character sequence. -/
def pyStrip (s : String) : String :=
  ⟨((s.data.dropWhile pyIsSpace).reverse.dropWhile pyIsSpace).reverse⟩

/-- Routing branch of do_GET (reverse_proxy.py lines 87-93): paths equal to
or starting with "/health" go to the log server, everything else to the
asset server. -/
def getRoute (p : String) : Backend :=
  if p == "/health" || pyStartsWith p "/health" then .log else .asset

/-- Routing branch of do_POST (reverse_proxy.py lines 98-111): paths equal to
or starting with "/logs" go to the log server, everything else to the
asset server. -/
def postRoute (p : String) : Backend :=
  if p == "/logs" || pyStartsWith p "/logs" then .log else .asset

/-- Backend selected for a method and path, as implemented by the per-verb
handlers: do_GET uses the "/health" rule, do_POST the "/logs" rule,
do_PUT (line 126) and do_DELETE (line 131) always use the asset server,
and do_OPTIONS never contacts a backend (none). -/
def routeBackend : Method → String → Option Backend
  | .GET, p => some (getRoute p)
  | .POST, p => some (postRoute p)
  | .PUT, _ => some .asset
  | .DELETE, _ => some .asset
  | .OPTIONS, _ => none

/-- A response written back to the client: status line, headers in the order
they are emitted by send_header, and body bytes. -/
structure Response where
  status : Nat
  headers : List (String × String)
  body : Bytes
deriving DecidableEq

/-- The three CORS headers added by the proxy on the success path
(reverse_proxy.py lines 61-63) and by do_OPTIONS (lines 116-118), in
source order. -/
def corsAll : List (String × String) :=
  [("Access-Control-Allow-Origin", "*"),
   ("Access-Control-Allow-Methods", "GET, POST, OPTIONS"),
   ("Access-Control-Allow-Headers", "Content-Type, Content-Encoding")]

/-- UTF-8 encoding of a string, modelling Python str.encode(). -/
def strToBytes (s : String) : Bytes := s.toUTF8.toList

/-- Python int() applied to a decimal string: optional surrounding
whitespace, optional sign, then ASCII digits optionally separated by
single underscores. Returns none when int() would raise ValueError.
(Non-ASCII digit alphabets accepted by Python are not modelled; no claim
depends on them.) -/
def pyDigitsTail : List Char → Bool
  | [] => true
  | c :: rest =>
    if c == '_' then
      match rest with
      | [] => false
      | d :: rest2 => d.isDigit && pyDigitsTail (d :: rest2)
    else c.isDigit && pyDigitsTail rest

/-- Nonempty ASCII digit run with optional single underscores between
digits, as Python int() accepts. -/
def pyDigitsOk : List Char → Bool
  | [] => false
  | c :: rest => c.isDigit && pyDigitsTail rest

/-- Numeric value of a digit run, skipping underscore separators. -/
def digitsToNat (cs : List Char) : Nat :=
  cs.foldl (fun acc c => if c == '_' then acc else acc * 10 + (c.toNat - 48)) 0

/-- Python int(s) for a string s: some value, or none when ValueError is
raised. -/
def pyIntOfString (s : String) : Option Int :=
  let cs := (pyStrip s).data
  match cs with
  | '-' :: rest => if pyDigitsOk rest then some (-(digitsToNat rest : Int)) else none
  | '+' :: rest => if pyDigitsOk rest then some ((digitsToNat rest : Int)) else none
  | _ => if pyDigitsOk cs then some ((digitsToNat cs : Int)) else none

/-- Case-insensitive header lookup, modelling self.headers.get on the
case-insensitive HTTPMessage mapping (first match). -/
def headerGet (hs : List (String × String)) (name : String) : Option String :=
  match hs.find? (fun h => pyLower h.1 == pyLower name) with
  | some h => some h.2
  | none => none

/-- Result of int(self.headers.get('Content-Length', 0)) in do_POST
(line 100) and do_PUT (line 123): some 0 when the header is absent
(int of the integer default 0), the parsed value when it parses, and
none when int() raises ValueError on a malformed header value. -/
def readContentLength (hs : List (String × String)) : Option Int :=
  match headerGet hs "Content-Length" with
  | none => some 0
  | some v => pyIntOfString v

/-- What a verb handler does with an inbound request: answer locally
(do_OPTIONS), forward to a backend URL via _proxy_request, or raise an
uncaught exception, in which case socketserver closes the connection
without writing any HTTP response (crash). -/
inductive HandlerAction where
  | respond (r : Response)
  | forward (targetUrl : String) (body : Option Bytes) (headers : List (String × String))
  | crash
deriving DecidableEq

/-- Whether the client ends up with an HTTP response: true for a local
response, and for a forward because every branch of _proxy_request's
try/except writes a response; false for crash, where the connection is
closed by socketserver with nothing written. -/
def producesResponse : HandlerAction → Bool
  | .respond _ => true
  | .forward _ _ _ => true
  | .crash => false

/-- Body passed to _proxy_request by do_POST / do_PUT given a parsed
Content-Length n: rfile.read(n) when n > 0, and None otherwise
(lines 100-101, 123-124). -/
def readBodyBytes (raw : Bytes) (n : Int) : Option Bytes :=
  if n > 0 then some (raw.take n.toNat) else none

/-- Per-request dispatch of the handler class: which verb handler runs and
what it does, given method, path, inbound headers and the bytes available
on the request stream. Mirrors do_GET, do_POST, do_OPTIONS, do_PUT and
do_DELETE of reverse_proxy.py. -/
def dispatch (m : Method) (path : String) (headers : List (String × String))
    (raw : Bytes) : HandlerAction :=
  match m with
  | .OPTIONS => .respond { status := 200, headers := corsAll, body := [] }
  | .GET => .forward (baseUrl (getRoute path) ++ path) none headers
  | .DELETE => .forward (ASSET_SERVER_URL ++ path) none headers
  | .POST =>
    match readContentLength headers with
    | none => .crash
    | some n => .forward (baseUrl (postRoute path) ++ path) (readBodyBytes raw n) headers
  | .PUT =>
    match readContentLength headers with
    | none => .crash
    | some n => .forward (ASSET_SERVER_URL ++ path) (readBodyBytes raw n) headers

/-- Inbound headers copied onto the outbound request by _proxy_request
(lines 38-41): every header whose lowercased name is not host,
connection or content-length. -/
def filterOutboundHeaders (hs : List (String × String)) : List (String × String) :=
  hs.filter (fun h =>
    !(pyLower h.1 == "host" || pyLower h.1 == "connection" || pyLower h.1 == "content-length"))

/-- Full outbound header mapping built by _proxy_request via add_header:
the filtered inbound headers, then Content-Length recomputed from the
actual body when a non-empty body is present (lines 44-45; in Python
`if body:` is false for None and for empty bytes). -/
def outboundHeaders (hs : List (String × String)) (body : Option Bytes) :
    List (String × String) :=
  filterOutboundHeaders hs ++
    (match body with
     | some b => if b.isEmpty then [] else [("Content-Length", toString b.length)]
     | none => [])

/-- Timeout in seconds passed to urllib.request.urlopen (line 48). -/
def urlopenTimeoutSeconds : Nat := 10

/-- Outcome of the outbound backend call as seen by _proxy_request's
try/except: a response object, an urllib.error.HTTPError carrying the
backend status code, reason and error body, or any other exception with
its message. -/
inductive BackendOutcome where
  | success (status : Nat) (headers : List (String × String)) (body : Bytes)
  | httpError (code : Nat) (reason : String) (errBody : Bytes)
  | failure (msg : String)
deriving DecidableEq

/-- Response relayed on the success path of _proxy_request (lines 48-66):
the backend status, every backend header except Connection followed by
the three CORS headers, and the backend body verbatim. -/
def relaySuccess (status : Nat) (bHeaders : List (String × String)) (bBody : Bytes) :
    Response :=
  { status := status,
    headers := bHeaders.filter (fun h => !(pyLower h.1 == "connection")) ++ corsAll,
    body := bBody }

/-- Response _proxy_request writes to the client for each outcome of the
backend call (reverse_proxy.py lines 48-82). -/
def proxyResponse : BackendOutcome → Response
  | .success st hs b => relaySuccess st hs b
  | .httpError code reason _ =>
    { status := code,
      headers := [("Content-Type", "text/plain"), ("Access-Control-Allow-Origin", "*")],
      body := strToBytes ("Proxy error: " ++ reason) }
  | .failure msg =>
    { status := 500,
      headers := [("Content-Type", "text/plain"), ("Access-Control-Allow-Origin", "*")],
      body := strToBytes ("Proxy error: " ++ msg) }

/-! Log sink model (src/server/log_server.py). -/

/-- A parsed JSON value as Python json.loads produces it: None, bool, number,
string, list or dict. Numbers are modelled as integers: no claim involves
fractional JSON numbers. An obj models an already-built Python dict, so
duplicate keys are assumed resolved by the parser. -/
inductive Json where
  | null
  | bool (b : Bool)
  | num (n : Int)
  | str (s : String)
  | arr (elems : List Json)
  | obj (fields : List (String × Json))

/-- Python dict.get(k, d) on the field list of a dict. -/
def dictGet (fs : List (String × Json)) (k : String) (d : Json) : Json :=
  match fs.find? (fun f => f.1 == k) with
  | some f => f.2
  | none => d

/-- Python value.get(k, d): only dicts have a get method; on any other
value an AttributeError is raised. -/
def pyGet (v : Json) (k : String) (d : Json) : Except String Json :=
  match v with
  | .obj fs => .ok (dictGet fs k d)
  | _ => .error "AttributeError: object has no attribute get"

/-- Python iteration over a value, as `for log_entry in logs` performs it:
lists yield their elements, strings their one-character substrings, dicts
their keys; other values raise TypeError. -/
def pyIter (v : Json) : Except String (List Json) :=
  match v with
  | .arr xs => .ok xs
  | .str s => .ok (s.data.map (fun c => Json.str (String.singleton c)))
  | .obj fs => .ok (fs.map (fun f => Json.str f.1))
  | _ => .error "TypeError: object is not iterable"

/-- Lowercase hex digit of a value below 16. -/
def hexChar (n : Nat) : Char :=
  if n < 10 then Char.ofNat (48 + n) else Char.ofNat (87 + (n - 10))

/-- JSON string escaping as json.dumps(..., ensure_ascii=False) performs it:
backslash, double quote and control characters are escaped, everything
else is kept verbatim. -/
def jsonEscapeChar (c : Char) : String :=
  if c == '"' then "\\\""
  else if c == '\\' then "\\\\"
  else if c == '\n' then "\\n"
  else if c == '\t' then "\\t"
  else if c == '\r' then "\\r"
  else if c.toNat == 8 then "\\b"
  else if c.toNat == 12 then "\\f"
  else if c.toNat < 32 then
    "\\u00" ++ String.singleton (hexChar (c.toNat / 16)) ++ String.singleton (hexChar (c.toNat % 16))
  else String.singleton c

/-- Escape every character of a JSON string body. -/
def jsonEscape (s : String) : String :=
  String.join (s.data.map jsonEscapeChar)

mutual

/-- Python json.dumps with its default separators (", " between items and
": " after keys), ensure_ascii=False as used for log lines; the response
bodies dumped by the server are pure ASCII so the default ensure_ascii
makes no difference there. -/
def jsonDumps : Json → String
  | .null => "null"
  | .bool true => "true"
  | .bool false => "false"
  | .num n => toString n
  | .str s => "\"" ++ jsonEscape s ++ "\""
  | .arr xs => "[" ++ jsonDumpsList xs ++ "]"
  | .obj fs => "\x7b" ++ jsonDumpsFields fs ++ "\x7d"

/-- Comma-separated dump of array elements. -/
def jsonDumpsList : List Json → String
  | [] => ""
  | [x] => jsonDumps x
  | x :: y :: rest => jsonDumps x ++ ", " ++ jsonDumpsList (y :: rest)

/-- Comma-separated dump of object fields. -/
def jsonDumpsFields : List (String × Json) → String
  | [] => ""
  | [f] => "\"" ++ jsonEscape f.1 ++ "\": " ++ jsonDumps f.2
  | f :: g :: rest =>
    "\"" ++ jsonEscape f.1 ++ "\": " ++ jsonDumps f.2 ++ ", " ++ jsonDumpsFields (g :: rest)

end

mutual

/-- Python repr() of a parsed JSON value (used by str() on containers). -/
def pyRepr : Json → String
  | .null => "None"
  | .bool true => "True"
  | .bool false => "False"
  | .num n => toString n
  | .str s => "'" ++ s ++ "'"
  | .arr xs => "[" ++ pyReprList xs ++ "]"
  | .obj fs => "\x7b" ++ pyReprFields fs ++ "\x7d"

/-- Comma-separated repr of list elements. -/
def pyReprList : List Json → String
  | [] => ""
  | [x] => pyRepr x
  | x :: y :: rest => pyRepr x ++ ", " ++ pyReprList (y :: rest)

/-- Comma-separated repr of dict fields. -/
def pyReprFields : List (String × Json) → String
  | [] => ""
  | [f] => "'" ++ f.1 ++ "': " ++ pyRepr f.2
  | f :: g :: rest => "'" ++ f.1 ++ "': " ++ pyRepr f.2 ++ ", " ++ pyReprFields (g :: rest)

end

/-- Python str() of a parsed JSON value, as the f-string building the log
file name applies it. Scalar cases are exact; container cases follow
Python repr up to string-escaping details inside nested strings, which
no claim exercises. -/
def pyStr : Json → String
  | .str s => s
  | v => pyRepr v

/-- The clock values _handle_logs reads. isoNow models
datetime.now().isoformat(), computed once per request; localDate models
datetime.now().strftime of the YYYYMMDD pattern — datetime.now() is the
server-local clock; utcDate is what datetime.utcnow() would give for the
same instant. The source only ever reads the local clock. -/
structure Clock where
  isoNow : String
  localDate : String
  utcDate : String
deriving DecidableEq

/-- Observable outcome of one _handle_logs call: the HTTP status sent, the
headers sent, the response body text, the lines appended to the log file
in order, and the log file name opened for append (none when the request
fails before the file is opened). -/
structure LogResult where
  status : Nat
  headers : List (String × String)
  respBody : String
  written : List String
  fileKey : Option String
deriving DecidableEq

/-- Response body of the 500 handler (log_server.py line 103). -/
def errBody (msg : String) : String :=
  jsonDumps (.obj [("status", .str "error"), ("message", .str msg)])

/-- LogResult of the outer except branch: status 500, no headers, error
body, nothing written, no file opened. -/
def err500 (msg : String) : LogResult :=
  { status := 500, headers := [], respBody := errBody msg, written := [], fileKey := none }

/-- One log line as the write loop builds it (log_server.py lines 76-82):
json.dumps of the record with defaulted fields, evaluated in source
order, so a non-dict entry raises on the first get. -/
def buildLogLine (clock : Clock) (deviceId : Json) (entry : Json) : Except String String := do
  let ts ← pyGet entry "timestamp" (.str clock.isoNow)
  let lv ← pyGet entry "level" (.str "DEBUG")
  let comp ← pyGet entry "component" (.str "")
  let msg ← pyGet entry "message" (.str "")
  pure (jsonDumps (.obj
    [("timestamp", ts), ("level", lv), ("component", comp),
     ("message", msg), ("device_id", deviceId)]))

/-- Sequential processing of the write loop: lines successfully appended
before any exception, and the exception message if one was raised. -/
def writeEntries (clock : Clock) (deviceId : Json) : List Json → List String × Option String
  | [] => ([], none)
  | e :: rest =>
    match buildLogLine clock deviceId e with
    | .error m => ([], some m)
    | .ok line =>
      let p := writeEntries clock deviceId rest
      (line :: p.1, p.2)

/-- Headers sent on the 200 path (log_server.py lines 94-95). -/
def logOkHeaders : List (String × String) :=
  [("Content-Type", "application/json"), ("Access-Control-Allow-Origin", "*")]

/-- Processing of a successfully parsed JSON body by _handle_logs
(log_server.py lines 66-97): device_id and logs defaulting, file name
from str(device_id) and the local date, the write loop, and the 200
response; any exception falls to the outer except and yields 500, with
the file already opened (and any earlier lines written) when the
exception is raised inside the with-block. -/
def handleParsed (clock : Clock) (logData : Json) : LogResult :=
  match pyGet logData "device_id" (.str "unknown") with
  | .error m => err500 m
  | .ok deviceId =>
    match pyGet logData "logs" (.arr []) with
    | .error m => err500 m
    | .ok logsVal =>
      let fileKey := pyStr deviceId ++ "_" ++ clock.localDate ++ ".log"
      match pyIter logsVal with
      | .error m =>
        { status := 500, headers := [], respBody := errBody m,
          written := [], fileKey := some fileKey }
      | .ok entries =>
        match writeEntries clock deviceId entries with
        | (lines, some m) =>
          { status := 500, headers := [], respBody := errBody m,
            written := lines, fileKey := some fileKey }
        | (lines, none) =>
          { status := 200, headers := logOkHeaders,
            respBody := jsonDumps (.obj
              [("status", .str "ok"), ("received", .num entries.length)]),
            written := lines, fileKey := some fileKey }

/-- Outcome of reading and decoding the request body, up to the json.loads
call: the Content-Length count was zero; some exception was raised while
reading or decoding (malformed Content-Length, gzip.decompress failure
on a bad gzip stream, UnicodeDecodeError on non-UTF-8 bytes — all caught
only by the outer except); json.loads raised JSONDecodeError; or a
parsed JSON value. -/
inductive BodyOutcome where
  | emptyBody
  | readError (msg : String)
  | jsonError
  | parsed (j : Json)

/-- Full _handle_logs behaviour (log_server.py lines 39-103) over the body
decoding outcome: 400 with empty body for a zero-length body (lines
46-49) and for invalid JSON (lines 58-64), 500 via the outer except for
read/decode failures, and handleParsed for a parsed value. -/
def handleLogs (clock : Clock) : BodyOutcome → LogResult
  | .emptyBody => { status := 400, headers := [], respBody := "", written := [], fileKey := none }
  | .readError m => err500 m
  | .jsonError => { status := 400, headers := [], respBody := "", written := [], fileKey := none }
  | .parsed j => handleParsed clock j

/-- do_POST of the log server (log_server.py lines 30-37): only the paths
"/logs" and "/" reach _handle_logs, every other path gets a bare 404. -/
def logServerPost (clock : Clock) (path : String) (outcome : BodyOutcome) : LogResult :=
  if path == "/logs" || path == "/" then handleLogs clock outcome
  else { status := 404, headers := [], respBody := "", written := [], fileKey := none }

/-! Helper lemmas shared by the claim theorems. -/

/-- The write loop succeeds on a dict entry, producing the dumped record
with defaults. -/
theorem buildLogLine_obj (clock : Clock) (dev : Json) (efs : List (String × Json)) :
    buildLogLine clock dev (.obj efs) = .ok (jsonDumps (.obj
      [("timestamp", dictGet efs "timestamp" (.str clock.isoNow)),
       ("level", dictGet efs "level" (.str "DEBUG")),
       ("component", dictGet efs "component" (.str "")),
       ("message", dictGet efs "message" (.str "")),
       ("device_id", dev)])) := rfl

/-- When every entry of the batch is a dict, the write loop raises nothing
and appends exactly one line per entry. -/
theorem writeEntries_all_obj (clock : Clock) (dev : Json) :
    ∀ entries : List Json, (∀ e ∈ entries, ∃ efs, e = .obj efs) →
      (writeEntries clock dev entries).2 = none ∧
      (writeEntries clock dev entries).1.length = entries.length := by
  intro entries h
  induction entries with
  | nil => exact ⟨rfl, rfl⟩
  | cons e rest ih =>
    obtain ⟨efs, rfl⟩ := h e (by simp)
    have hrest := ih (fun x hx => h x (by simp [hx]))
    simp [writeEntries, buildLogLine_obj, hrest.1, hrest.2]

/-! Theorems for the claims. -/

/-- Claim C1, counterexample: the path "/logs" starts with "/logs", yet a
GET (and likewise PUT and DELETE) for it selects the asset backend; only
POST selects the log sink, so the method is part of the routing key. -/
theorem C1_counterexample :
    pyStartsWith "/logs" "/logs" = true ∧
    routeBackend Method.GET "/logs" = some Backend.asset ∧
    routeBackend Method.POST "/logs" = some Backend.log ∧
    routeBackend Method.PUT "/logs" = some Backend.asset ∧
    routeBackend Method.DELETE "/logs" = some Backend.asset := by
  refine ⟨rfl, by decide, by decide, rfl, rfl⟩

/-- Claim C1 (amended): routing depends on the HTTP method. GET selects the
log sink exactly for paths equal to or starting with "/health" and the
asset backend otherwise; POST selects the log sink exactly for paths
equal to or starting with "/logs" and the asset backend otherwise; PUT
and DELETE always select the asset backend. -/
theorem C1_routing_by_method :
    (∀ p, (p == "/health" || pyStartsWith p "/health") = true →
      routeBackend .GET p = some .log) ∧
    (∀ p, (p == "/health" || pyStartsWith p "/health") = false →
      routeBackend .GET p = some .asset) ∧
    (∀ p, (p == "/logs" || pyStartsWith p "/logs") = true →
      routeBackend .POST p = some .log) ∧
    (∀ p, (p == "/logs" || pyStartsWith p "/logs") = false →
      routeBackend .POST p = some .asset) ∧
    (∀ p, routeBackend .PUT p = some .asset) ∧
    (∀ p, routeBackend .DELETE p = some .asset) := by
  refine ⟨fun p h => ?_, fun p h => ?_, fun p h => ?_, fun p h => ?_,
    fun p => rfl, fun p => rfl⟩ <;>
    simp [routeBackend, getRoute, postRoute, h]

/-- Claim C1, witness: the amended routing rules at concrete paths. -/
theorem C1_routing_witness :
    routeBackend .GET "/health" = some .log ∧
    routeBackend .GET "/index.html" = some .asset ∧
    routeBackend .POST "/logs" = some .log ∧
    routeBackend .POST "/health" = some .asset ∧
    routeBackend .PUT "/anything" = some .asset :=
  ⟨C1_routing_by_method.1 "/health" (by decide),
   C1_routing_by_method.2.1 "/index.html" (by decide),
   C1_routing_by_method.2.2.1 "/logs" (by decide),
   C1_routing_by_method.2.2.2.1 "/health" (by decide),
   C1_routing_by_method.2.2.2.2.1 "/anything"⟩

/-- Claim C2, counterexample: the backend-HTTP-error response carries only
Content-Type and the CORS origin header — the Allow-Methods and
Allow-Headers CORS headers are absent, so not every proxy response
carries all three. -/
theorem C2_counterexample :
    (proxyResponse (.httpError 404 "Not Found" [])).headers =
      [("Content-Type", "text/plain"), ("Access-Control-Allow-Origin", "*")] ∧
    ((proxyResponse (.httpError 404 "Not Found" [])).headers.filter
      (fun h => h.1 == "Access-Control-Allow-Methods")).length = 0 := by
  exact ⟨rfl, rfl⟩

/-- Claim C2 (amended): the success response carries all three CORS headers;
the backend-HTTP-error and transport-failure responses carry exactly
Content-Type: text/plain and Access-Control-Allow-Origin: * — the other
two CORS headers only appear on the success (and OPTIONS) paths. -/
theorem C2_cors_application :
    (∀ st hs b, ∀ c ∈ corsAll, c ∈ (proxyResponse (.success st hs b)).headers) ∧
    (∀ code reason eb, (proxyResponse (.httpError code reason eb)).headers =
      [("Content-Type", "text/plain"), ("Access-Control-Allow-Origin", "*")]) ∧
    (∀ msg, (proxyResponse (.failure msg)).headers =
      [("Content-Type", "text/plain"), ("Access-Control-Allow-Origin", "*")]) := by
  refine ⟨fun st hs b c hc => ?_, fun code reason eb => rfl, fun msg => rfl⟩
  exact List.mem_append_right _ hc

/-- Claim C2, witness: the origin header is on a concrete success response. -/
theorem C2_cors_witness :
    ("Access-Control-Allow-Origin", "*") ∈
      (proxyResponse (.success 200 [("Content-Type", "text/html")] [])).headers :=
  C2_cors_application.1 200 [("Content-Type", "text/html")] []
    ("Access-Control-Allow-Origin", "*") (by simp [corsAll])

/-- Claim C3: the outbound header mapping contains no Host, Connection or
Content-Length header copied from the inbound request; with a forwarded
body, Content-Length is the byte length of the actual body, and every
other inbound header is passed through unchanged. -/
theorem C3_outbound_header_filtering :
    ∀ (hs : List (String × String)) (b : Bytes), b ≠ [] →
      ((∀ n v, (n, v) ∈ outboundHeaders hs (some b) →
          pyLower n ≠ "host" ∧ pyLower n ≠ "connection") ∧
       (∀ n v, (n, v) ∈ outboundHeaders hs (some b) → pyLower n = "content-length" →
          v = toString b.length) ∧
       ("Content-Length", toString b.length) ∈ outboundHeaders hs (some b) ∧
       (∀ n v, (n, v) ∈ hs → pyLower n ≠ "host" → pyLower n ≠ "connection" →
          pyLower n ≠ "content-length" → (n, v) ∈ outboundHeaders hs (some b))) := by
  intro hs b hb
  have hbe : b.isEmpty = false := by
    cases b with
    | nil => exact absurd rfl hb
    | cons x xs => rfl
  simp only [outboundHeaders]
  refine ⟨?_, ?_, ?_, ?_⟩
  · intro n v hmem
    rcases List.mem_append.mp hmem with hm | hm
    · have hp := (List.mem_filter.mp hm).2
      simp only [Bool.not_eq_true', Bool.or_eq_false_iff, beq_eq_false_iff_ne] at hp
      exact ⟨hp.1.1, hp.1.2⟩
    · simp [hbe] at hm
      rw [hm.1]
      exact ⟨by decide, by decide⟩
  · intro n v hmem hcl
    rcases List.mem_append.mp hmem with hm | hm
    · have hp := (List.mem_filter.mp hm).2
      simp only [Bool.not_eq_true', Bool.or_eq_false_iff, beq_eq_false_iff_ne] at hp
      exact absurd hcl hp.2
    · simp [hbe] at hm
      exact hm.2
  · apply List.mem_append_right
    simp [hbe]
  · intro n v hmem h1 h2 h3
    apply List.mem_append_left
    exact List.mem_filter.mpr ⟨hmem, by simp [h1, h2, h3]⟩

/-- Claim C3, witness: a Host header is stripped, a custom header passes
through, and Content-Length is recomputed from the one-byte body. -/
theorem C3_outbound_witness :
    ("Content-Length", toString (1 : Nat)) ∈
      outboundHeaders [("Host", "evil.example"), ("X-Token", "t")] (some [104]) ∧
    ("X-Token", "t") ∈
      outboundHeaders [("Host", "evil.example"), ("X-Token", "t")] (some [104]) := by
  have h := C3_outbound_header_filtering
    [("Host", "evil.example"), ("X-Token", "t")] [104] (by decide)
  exact ⟨h.2.2.1, h.2.2.2 "X-Token" "t" (by decide) (by decide) (by decide) (by decide)⟩

/-- Claim C4, counterexample: when the backend itself supplies an
Access-Control-Allow-Origin header, the relayed response contains two
values for that name — the CORS headers are appended, not overwritten. -/
theorem C4_counterexample :
    (proxyResponse (.success 200
       [("Access-Control-Allow-Origin", "http://evil.example")] [])).headers.filter
      (fun h => h.1 == "Access-Control-Allow-Origin") =
    [("Access-Control-Allow-Origin", "http://evil.example"),
     ("Access-Control-Allow-Origin", "*")] := by decide

/-- Claim C4 (amended): on success the relayed response has the backend
status, the backend body verbatim, every backend header except
Connection followed by the three CORS headers; a same-named backend
header is kept, so the CORS values are appended rather than
overwriting. -/
theorem C4_success_relay :
    ∀ st hs b,
      (proxyResponse (.success st hs b)).status = st ∧
      (proxyResponse (.success st hs b)).body = b ∧
      (proxyResponse (.success st hs b)).headers =
        hs.filter (fun h => !(pyLower h.1 == "connection")) ++ corsAll ∧
      (∀ n v, (n, v) ∈ hs → pyLower n ≠ "connection" →
        (n, v) ∈ (proxyResponse (.success st hs b)).headers) ∧
      (proxyResponse (.success st hs b)).headers.filter
        (fun h => pyLower h.1 == "connection") = [] := by
  intro st hs b
  refine ⟨rfl, rfl, rfl, ?_, ?_⟩
  · intro n v hm hnc
    apply List.mem_append_left
    exact List.mem_filter.mpr ⟨hm, by simp [hnc]⟩
  · show (hs.filter _ ++ corsAll).filter _ = []
    rw [List.filter_append]
    have h2 : corsAll.filter (fun h => pyLower h.1 == "connection") = [] := by decide
    rw [h2, List.filter_filter]
    refine List.append_eq_nil.mpr ⟨?_, rfl⟩
    refine List.filter_eq_nil_iff.mpr fun a _ => ?_
    cases h : (pyLower a.1 == "connection") <;> simp [h]

/-- Claim C4, witness: concrete success relay keeps the backend header,
strips Connection, and appends the CORS headers. -/
theorem C4_success_witness :
    ("X-Served-By", "assets") ∈
      (proxyResponse (.success 200
        [("X-Served-By", "assets"), ("Connection", "close")] [104, 105])).headers ∧
    (proxyResponse (.success 200
        [("X-Served-By", "assets"), ("Connection", "close")] [104, 105])).body = [104, 105] := by
  have h := C4_success_relay 200 [("X-Served-By", "assets"), ("Connection", "close")] [104, 105]
  exact ⟨h.2.2.2.1 "X-Served-By" "assets" (by decide) (by decide), h.2.1⟩

/-- Claim C5: an OPTIONS request to any path is answered locally with
status 200, the three CORS headers and an empty body, and no backend is
selected (the backend is never contacted for a preflight). -/
theorem C5_options_preflight_local :
    ∀ (p : String) (hs : List (String × String)) (raw : Bytes),
      dispatch .OPTIONS p hs raw =
        .respond { status := 200, headers := corsAll, body := [] } ∧
      routeBackend .OPTIONS p = none := by
  intro p hs raw
  exact ⟨rfl, rfl⟩

/-- Claim C6: a backend HTTP error surfaced as urllib.error.HTTPError is
relayed with exactly the backend status code, Content-Type: text/plain
and the CORS origin header, and a diagnostic body of the proxy's own;
the response does not depend on the backend's error body. -/
theorem C6_http_error_relay :
    ∀ (code : Nat) (reason : String) (eb : Bytes),
      (proxyResponse (.httpError code reason eb)).status = code ∧
      (proxyResponse (.httpError code reason eb)).headers =
        [("Content-Type", "text/plain"), ("Access-Control-Allow-Origin", "*")] ∧
      (proxyResponse (.httpError code reason eb)).body =
        strToBytes ("Proxy error: " ++ reason) ∧
      proxyResponse (.httpError code reason eb) = proxyResponse (.httpError code reason []) := by
  intro code reason eb
  exact ⟨rfl, rfl, rfl, rfl⟩

/-- Claim C7: any non-HTTP failure of the outbound call yields status 500,
Content-Type: text/plain, the CORS origin header and a body naming the
failure; the outbound call is issued with a 10-second timeout. -/
theorem C7_transport_failure_relay :
    ∀ msg : String,
      (proxyResponse (.failure msg)).status = 500 ∧
      (proxyResponse (.failure msg)).headers =
        [("Content-Type", "text/plain"), ("Access-Control-Allow-Origin", "*")] ∧
      (proxyResponse (.failure msg)).body = strToBytes ("Proxy error: " ++ msg) ∧
      urlopenTimeoutSeconds = 10 := by
  intro msg
  exact ⟨rfl, rfl, rfl, rfl⟩

/-- Claim C8, counterexample: a POST whose Content-Length header is "abc"
makes int() raise an uncaught ValueError in do_POST, so the connection
is closed without any HTTP response — the proxy neither returns 400 nor
passes the request through. -/
theorem C8_counterexample :
    pyIntOfString "abc" = none ∧
    dispatch Method.POST "/logs" [("Content-Length", "abc")] [] = HandlerAction.crash ∧
    producesResponse (dispatch Method.POST "/logs" [("Content-Length", "abc")] []) = false := by
  exact ⟨rfl, rfl, rfl⟩

/-- Claim C8 (amended): when the Content-Length header is absent or parses
as an integer, every handler answers or forwards, so the caller gets a
response; when it is present but not an integer literal, do_POST and
do_PUT raise an uncaught ValueError and the connection is dropped with
no response (the listening process itself survives, which the embedding
does not model). -/
theorem C8_content_length_handling :
    (∀ (p : String) (hs : List (String × String)) (raw : Bytes) (n : Int),
      readContentLength hs = some n →
      producesResponse (dispatch .POST p hs raw) = true ∧
      producesResponse (dispatch .PUT p hs raw) = true ∧
      dispatch .POST p hs raw =
        .forward (baseUrl (postRoute p) ++ p) (readBodyBytes raw n) hs ∧
      dispatch .PUT p hs raw =
        .forward (ASSET_SERVER_URL ++ p) (readBodyBytes raw n) hs) ∧
    (∀ (p : String) (hs : List (String × String)) (raw : Bytes),
      producesResponse (dispatch .GET p hs raw) = true ∧
      producesResponse (dispatch .DELETE p hs raw) = true ∧
      producesResponse (dispatch .OPTIONS p hs raw) = true) ∧
    (∀ (p : String) (hs : List (String × String)) (raw : Bytes),
      readContentLength hs = none →
      dispatch .POST p hs raw = .crash ∧ dispatch .PUT p hs raw = .crash) := by
  refine ⟨?_, ?_, ?_⟩
  · intro p hs raw n h
    simp [dispatch, h, producesResponse]
  · intro p hs raw
    exact ⟨rfl, rfl, rfl⟩
  · intro p hs raw h
    simp [dispatch, h]

/-- Claim C8, witness: a well-formed Content-Length forwards the read body,
a malformed one crashes the handler. -/
theorem C8_content_length_witness :
    dispatch .POST "/logs" [("Content-Length", "2")] [104, 105, 106] =
      .forward (LOG_SERVER_URL ++ "/logs") (some [104, 105]) [("Content-Length", "2")] ∧
    dispatch .POST "/x" [("Content-Length", "oops")] [] = .crash := by
  have h1 := C8_content_length_handling.1 "/logs" [("Content-Length", "2")]
    [104, 105, 106] 2 (by decide)
  have h2 := C8_content_length_handling.2.2 "/x" [("Content-Length", "oops")] [] (by decide)
  exact ⟨by rw [h1.2.2.1]; rfl, h2.1⟩

/-- Claim C9, counterexample: the body "[]" is non-empty valid JSON, yet the
sink answers 500 (AttributeError on list.get), not 200; and the log file
is keyed by the server-local date, not the UTC date — at an instant
where the local date is 20250101 and the UTC date still 20241231, the
file name uses 20250101. -/
theorem C9_counterexample :
    (handleLogs
      { isoNow := "2025-01-01T00:00:00", localDate := "20250101", utcDate := "20250101" }
      (.parsed (.arr []))).status = 500 ∧
    (handleLogs
      { isoNow := "2025-01-01T01:00:00", localDate := "20250101", utcDate := "20241231" }
      (.parsed (.obj [("device_id", .str "dev1")]))).fileKey =
      some "dev1_20250101.log" := by
  refine ⟨rfl, ?_⟩
  show (handleParsed _ _).fileKey = _
  simp [handleParsed, pyGet, dictGet, pyIter, writeEntries, pyStr]

/-- Claim C9 (amended): for a non-empty body parsing as a JSON object whose
logs value is a list of objects, the sink writes exactly one line per
entry to the file named from str(device_id) and the server-local
YYYYMMDD date, and answers 200 with the ok/received body; a zero-length
body and a JSONDecodeError each give 400. -/
theorem C9_log_batch_behavior :
    (∀ (clock : Clock) (fields : List (String × Json)) (entries : List Json),
      dictGet fields "logs" (.arr []) = .arr entries →
      (∀ e ∈ entries, ∃ efs, e = .obj efs) →
      handleLogs clock (.parsed (.obj fields)) =
        { status := 200, headers := logOkHeaders,
          respBody := jsonDumps (.obj
            [("status", .str "ok"), ("received", .num entries.length)]),
          written := (writeEntries clock
            (dictGet fields "device_id" (.str "unknown")) entries).1,
          fileKey := some (pyStr (dictGet fields "device_id" (.str "unknown")) ++ "_" ++
            clock.localDate ++ ".log") } ∧
      (writeEntries clock (dictGet fields "device_id" (.str "unknown")) entries).1.length =
        entries.length) ∧
    (∀ clock : Clock, handleLogs clock .emptyBody =
      { status := 400, headers := [], respBody := "", written := [], fileKey := none }) ∧
    (∀ clock : Clock, handleLogs clock .jsonError =
      { status := 400, headers := [], respBody := "", written := [], fileKey := none }) := by
  refine ⟨?_, fun clock => rfl, fun clock => rfl⟩
  intro clock fields entries hl he
  obtain ⟨hw2, hw1⟩ :=
    writeEntries_all_obj clock (dictGet fields "device_id" (.str "unknown")) entries he
  refine ⟨?_, hw1⟩
  show handleParsed clock (.obj fields) = _
  rw [show handleParsed clock (.obj fields) =
    (match pyIter (dictGet fields "logs" (.arr [])) with
     | .error m =>
       { status := 500, headers := [], respBody := errBody m, written := [],
         fileKey := some (pyStr (dictGet fields "device_id" (.str "unknown")) ++ "_" ++
           clock.localDate ++ ".log") }
     | .ok es =>
       match writeEntries clock (dictGet fields "device_id" (.str "unknown")) es with
       | (lines, some m) =>
         { status := 500, headers := [], respBody := errBody m, written := lines,
           fileKey := some (pyStr (dictGet fields "device_id" (.str "unknown")) ++ "_" ++
             clock.localDate ++ ".log") }
       | (lines, none) =>
         { status := 200, headers := logOkHeaders,
           respBody := jsonDumps (.obj
             [("status", .str "ok"), ("received", .num es.length)]),
           written := lines,
           fileKey := some (pyStr (dictGet fields "device_id" (.str "unknown")) ++ "_" ++
             clock.localDate ++ ".log") }) from rfl]
  rw [hl]
  rcases hwe : writeEntries clock (dictGet fields "device_id" (.str "unknown")) entries
    with ⟨lines, o⟩
  rw [hwe] at hw2 hw1
  simp only at hw2
  subst hw2
  simp [pyIter, hwe]

/-- Claim C9, witness: a concrete one-entry batch gives 200, one written
line, the expected ok/received body and the device-and-date file name. -/
theorem C9_log_batch_witness :
    (handleLogs
      { isoNow := "2025-01-01T00:00:00", localDate := "20250101", utcDate := "20250101" }
      (.parsed (.obj [("device_id", .str "dev1"),
        ("logs", .arr [.obj [("level", .str "INFO"), ("component", .str "ui"),
          ("message", .str "started")]])]))).status = 200 ∧
    (handleLogs
      { isoNow := "2025-01-01T00:00:00", localDate := "20250101", utcDate := "20250101" }
      (.parsed (.obj [("device_id", .str "dev1"),
        ("logs", .arr [.obj [("level", .str "INFO"), ("component", .str "ui"),
          ("message", .str "started")]])]))).written.length = 1 ∧
    (handleLogs
      { isoNow := "2025-01-01T00:00:00", localDate := "20250101", utcDate := "20250101" }
      (.parsed (.obj [("device_id", .str "dev1"),
        ("logs", .arr [.obj [("level", .str "INFO"), ("component", .str "ui"),
          ("message", .str "started")]])]))).fileKey = some "dev1_20250101.log" := by
  have h := C9_log_batch_behavior.1
    { isoNow := "2025-01-01T00:00:00", localDate := "20250101", utcDate := "20250101" }
    [("device_id", .str "dev1"),
     ("logs", .arr [.obj [("level", .str "INFO"), ("component", .str "ui"),
       ("message", .str "started")]])]
    [.obj [("level", .str "INFO"), ("component", .str "ui"), ("message", .str "started")]]
    rfl
    (by
      intro e hee
      simp only [List.mem_singleton] at hee
      exact ⟨_, hee⟩)
  refine ⟨by rw [h.1], by rw [h.1]; exact h.2, by rw [h.1]; rfl⟩

/-- Claim C10: a body parsing as a JSON object is accepted without
validation of its fields: with device_id and logs both absent the sink
answers 200 with received 0, writes nothing, and opens the file keyed by
the default device id "unknown"; and an entry object missing level,
component and message is persisted with the defaults "DEBUG", "" and "",
its timestamp defaulting to the request's datetime.now().isoformat(). -/
theorem C10_missing_field_defaults :
    (∀ (clock : Clock) (fields : List (String × Json)),
      fields.find? (fun f => f.1 == "device_id") = none →
      fields.find? (fun f => f.1 == "logs") = none →
      handleLogs clock (.parsed (.obj fields)) =
        { status := 200, headers := logOkHeaders,
          respBody := jsonDumps (.obj [("status", .str "ok"), ("received", .num 0)]),
          written := [],
          fileKey := some ("unknown" ++ "_" ++ clock.localDate ++ ".log") }) ∧
    (∀ (clock : Clock) (dev : Json) (efs : List (String × Json)),
      efs.find? (fun f => f.1 == "level") = none →
      efs.find? (fun f => f.1 == "component") = none →
      efs.find? (fun f => f.1 == "message") = none →
      buildLogLine clock dev (.obj efs) = .ok (jsonDumps (.obj
        [("timestamp", dictGet efs "timestamp" (.str clock.isoNow)),
         ("level", .str "DEBUG"), ("component", .str ""), ("message", .str ""),
         ("device_id", dev)]))) := by
  constructor
  · intro clock fields hd hl
    have hd' : dictGet fields "device_id" (.str "unknown") = .str "unknown" := by
      simp [dictGet, hd]
    have hl' : dictGet fields "logs" (.arr []) = .arr [] := by
      simp [dictGet, hl]
    show handleParsed clock (.obj fields) = _
    rw [show handleParsed clock (.obj fields) =
      (match pyIter (dictGet fields "logs" (.arr [])) with
       | .error m =>
         { status := 500, headers := [], respBody := errBody m, written := [],
           fileKey := some (pyStr (dictGet fields "device_id" (.str "unknown")) ++ "_" ++
             clock.localDate ++ ".log") }
       | .ok es =>
         match writeEntries clock (dictGet fields "device_id" (.str "unknown")) es with
         | (lines, some m) =>
           { status := 500, headers := [], respBody := errBody m, written := lines,
             fileKey := some (pyStr (dictGet fields "device_id" (.str "unknown")) ++ "_" ++
               clock.localDate ++ ".log") }
         | (lines, none) =>
           { status := 200, headers := logOkHeaders,
             respBody := jsonDumps (.obj
               [("status", .str "ok"), ("received", .num es.length)]),
             written := lines,
             fileKey := some (pyStr (dictGet fields "device_id" (.str "unknown")) ++ "_" ++
               clock.localDate ++ ".log") }) from rfl]
    rw [hl', hd']
    simp [pyIter, writeEntries, pyStr]
  · intro clock dev efs h1 h2 h3
    have e1 : dictGet efs "level" (.str "DEBUG") = .str "DEBUG" := by simp [dictGet, h1]
    have e2 : dictGet efs "component" (.str "") = .str "" := by simp [dictGet, h2]
    have e3 : dictGet efs "message" (.str "") = .str "" := by simp [dictGet, h3]
    rw [buildLogLine_obj, e1, e2, e3]

/-- Claim C10, witness: the empty JSON object gets 200 with received 0 and
the "unknown" file key, and a concrete field-free entry is dumped with
the defaulted record fields. -/
theorem C10_defaults_witness :
    (handleLogs
      { isoNow := "2025-01-01T00:00:00", localDate := "20250101", utcDate := "20250101" }
      (.parsed (.obj []))).status = 200 ∧
    (handleLogs
      { isoNow := "2025-01-01T00:00:00", localDate := "20250101", utcDate := "20250101" }
      (.parsed (.obj []))).fileKey = some "unknown_20250101.log" ∧
    (handleLogs
      { isoNow := "2025-01-01T00:00:00", localDate := "20250101", utcDate := "20250101" }
      (.parsed (.obj []))).respBody = "\x7b\"status\": \"ok\", \"received\": 0\x7d" ∧
    buildLogLine
      { isoNow := "2025-01-01T00:00:00", localDate := "20250101", utcDate := "20250101" }
      (.str "dev1") (.obj []) = .ok
      ("\x7b\"timestamp\": \"2025-01-01T00:00:00\", \"level\": \"DEBUG\", " ++
       "\"component\": \"\", \"message\": \"\", \"device_id\": \"dev1\"\x7d") := by
  have h1 := C10_missing_field_defaults.1
    { isoNow := "2025-01-01T00:00:00", localDate := "20250101", utcDate := "20250101" }
    [] rfl rfl
  have h2 := C10_missing_field_defaults.2
    { isoNow := "2025-01-01T00:00:00", localDate := "20250101", utcDate := "20250101" }
    (.str "dev1") [] rfl rfl rfl
  refine ⟨by rw [h1], by rw [h1]; decide, ?_, ?_⟩
  · rw [h1]
    show jsonDumps _ = _
    simp only [jsonDumps, jsonDumpsFields, jsonEscape, jsonEscapeChar]
    decide
  · rw [h2]
    simp only [Except.ok.injEq, dictGet, List.find?, jsonDumps, jsonDumpsFields,
      jsonEscape, jsonEscapeChar]
    decide

end Vlinder
